import Mathlib

/-!
Verification development for the adaptive assessment scoring and session
orchestration engine of the `ai-prescreen` repository.

Shallow embedding conventions:
* JavaScript numbers are modelled as `ℚ` (all arithmetic appearing in the
  embedded code is exact decimal/integer arithmetic, so `ℚ` agrees with
  IEEE doubles on every comparison the code performs; this is noted at
  each threshold comparison where it matters).
* Fallible code returns `Except`/`Option`; database effects are explicit
  state passing over a `Db` record.
* Source file and symbol names are kept wherever Lean allows.
-/

namespace AiPrescreen

/-! ### packages/shared/src/constants.ts -/

/-- `MAX_ASSESSMENT_ITEMS = 18` (constants.ts). -/
def MAX_ASSESSMENT_ITEMS : ℕ := 18

/-- `DEFAULT_ASSESSMENT_DURATION_MINUTES = 15` (constants.ts). -/
def DEFAULT_ASSESSMENT_DURATION_MINUTES : ℚ := 15

/-! ### packages/shared/src/adaptive/staircase.ts -/

inductive Difficulty
| easy
| medium
| hard
deriving DecidableEq, Repr

inductive Section1
| competence
| communication
| integrity
deriving DecidableEq, Repr

/-- `params: Record<string, string | number>` values. -/
inductive ParamValue
| str (s : String)
| num (q : ℚ)
deriving DecidableEq, Repr

structure ItemTemplate where
  id : String
  difficulty : Difficulty
  template : String
  params : List (String × ParamValue)
  tSection : Section1
deriving DecidableEq, Repr

/-- `askedIds` is a JS `Set<string>`; modelled as a `Finset`. -/
structure StaircaseState where
  step : Difficulty
  askedIds : Finset String
  maxItems : ℕ
deriving DecidableEq

structure SelectionResult where
  nextItem : ItemTemplate
  nextState : StaircaseState
deriving DecidableEq

/-- `createInitialStaircaseState` (staircase.ts). -/
def createInitialStaircaseState (maxItems : ℕ) : StaircaseState :=
  { step := Difficulty.easy, askedIds := ∅, maxItems := maxItems }

/-- `transitionStep` (staircase.ts).  `lastScore?: number` is `Option ℚ`. -/
def transitionStep (current : Difficulty) (lastScore : Option ℚ) : Difficulty :=
  match lastScore with
  | none => current
  | some s =>
    if s ≥ 7 then (if current = Difficulty.easy then Difficulty.medium else Difficulty.hard)
    else if s ≤ 3 then (if current = Difficulty.hard then Difficulty.medium else Difficulty.easy)
    else current

/-- `selectNextItem` (staircase.ts).  `Math.floor(Math.random() * pool.length)`
is modelled by the extra parameter `idx`; the source's defensive
`if (!nextItem) return null` corresponds to the `pool.get? idx` failure case.
`new Set([...state.askedIds, nextItem.id])` is `insert nextItem.id state.askedIds`. -/
def selectNextItem (state : StaircaseState) (bank : List ItemTemplate)
    (lastScore : Option ℚ) (idx : ℕ) : Option SelectionResult :=
  let nextStep := transitionStep state.step lastScore
  let pool := bank.filter (fun i => decide (i.difficulty = nextStep) && !(decide (i.id ∈ state.askedIds)))
  if pool.length = 0 then none
  else
    match pool.get? idx with
    | none => none
    | some nextItem =>
      some { nextItem := nextItem,
             nextState := { step := nextStep,
                            askedIds := insert nextItem.id state.askedIds,
                            maxItems := state.maxItems } }

/-! ### packages/shared/src/integrity/risk.ts -/

inductive EventType
| visibilitychange
| paste
| blur
| focus
| latencyOutlier
deriving DecidableEq, Repr

/-- `IntegrityEvent` (risk.ts).  The timestamp field `at` is renamed `tAt`
(`at` is reserved in Lean); the `meta` field is never read by
`computeIntegrityRisk` and is omitted. -/
structure IntegrityEvent where
  type1 : EventType
  tAt : String
  itemId : Option String
deriving DecidableEq, Repr

inductive Band
| Low
| Med
| High
deriving DecidableEq, Repr

structure IntegrityRisk where
  risk : ℚ
  band : Band
  reasons : List String
deriving DecidableEq, Repr

/-- `e.itemId ?? 'unknown'` — the bucket key used when grouping. -/
def keyOf (e : IntegrityEvent) : String := e.itemId.getD "unknown"

/-- Key list of the `byItem` dictionary built by the grouping loop in
`computeIntegrityRisk`: JS object insertion order, i.e. first-occurrence
order of the keys. -/
def collectKeys (events : List IntegrityEvent) : List String :=
  events.foldl (fun acc e => if keyOf e ∈ acc then acc else acc ++ [keyOf e]) []

/-- The bucket stored under key `k`: the loop appends each event to its
key's bucket in order, so the bucket is exactly the sublist of events
whose key is `k`. -/
def bucketOf (events : List IntegrityEvent) (k : String) : List IntegrityEvent :=
  events.filter (fun e => decide (keyOf e = k))

/-- Risk contribution of one `byItem` entry, following the loop body of
`computeIntegrityRisk`:
`vis === 1 ? 0.05 : 0.15`, `0.05 + Math.max(0, pst - 1) * 0.1`, `0.1 * lat`.
Decimals are written as exact rationals (`0.05 = 1/20`, `0.15 = 3/20`,
`0.1 = 1/10`); `Math.max(0, pst - 1)` is truncated subtraction on `ℕ`. -/
def entryRisk (evts : List IntegrityEvent) : ℚ :=
  let vis := (evts.filter (fun e => decide (e.type1 = EventType.visibilitychange))).length
  let pst := (evts.filter (fun e => decide (e.type1 = EventType.paste))).length
  let lat := (evts.filter (fun e => decide (e.type1 = EventType.latencyOutlier))).length
  (if vis > 0 then (if vis = 1 then (1 : ℚ)/20 else 3/20) else 0)
    + (if pst > 0 then (1 : ℚ)/20 + ((pst - 1 : ℕ) : ℚ) * (1/10) else 0)
    + (1/10) * (lat : ℚ)

/-- Reason strings pushed by the loop body for one `byItem` entry. -/
def entryReasons (k : String) (evts : List IntegrityEvent) : List String :=
  let vis := (evts.filter (fun e => decide (e.type1 = EventType.visibilitychange))).length
  let pst := (evts.filter (fun e => decide (e.type1 = EventType.paste))).length
  let lat := (evts.filter (fun e => decide (e.type1 = EventType.latencyOutlier))).length
  (if vis > 0 then [toString vis ++ " tab hides on " ++ k] else [])
    ++ (if pst > 0 then [toString pst ++ " pastes on " ++ k] else [])
    ++ (if lat > 0 then [toString lat ++ " latency outliers on " ++ k] else [])

/-- `computeIntegrityRisk` (risk.ts): group by `itemId ?? 'unknown'`,
accumulate the per-entry contributions (`risk +=` over the loop is the sum
over entries), cap at 1 (`Math.min(1, risk)`), band by
`risk < 0.3 ? 'Low' : risk < 0.7 ? 'Med' : 'High'`, and keep the first 5
reasons (`reasons.slice(0, 5)`). -/
def computeIntegrityRisk (events : List IntegrityEvent) : IntegrityRisk :=
  let keys := collectKeys events
  let risk0 : ℚ := (keys.map (fun k => entryRisk (bucketOf events k))).sum
  let reasons := keys.flatMap (fun k => entryReasons k (bucketOf events k))
  let risk := min 1 risk0
  let band := if risk < 3/10 then Band.Low else if risk < 7/10 then Band.Med else Band.High
  { risk := risk, band := band, reasons := reasons.take 5 }

/-! ### packages/shared/src/scoring/bars.ts and apps/api/src/services/scoring.ts -/

/-- The three BARS criteria.  Schema validation guarantees integers in
`[0,3]` before the scoring service sees them; the service itself works on
plain numbers, so the fields are unrestricted `ℤ` here. -/
structure Criteria where
  policyProcedure : ℤ
  decisionQuality : ℤ
  evidenceSpecificity : ℤ
deriving DecidableEq, Repr

/-- `BarsQuestionScore` (shared types): `{total, criteria}`. -/
structure BarsQuestionScore where
  total : ℤ
  criteria : Criteria
deriving DecidableEq, Repr

/-- `scoreBarsCriterion` (bars.ts). -/
def scoreBarsCriterion (input : Criteria) : BarsQuestionScore :=
  { total := input.policyProcedure + input.decisionQuality + input.evidenceSpecificity,
    criteria := input }

/-- One response of `adapter.gradeAnswer` (the external oracle).
`followUp?: string` is optional in the source; the absent case is the
empty string, matching the JS truthiness test `!chosen.followUp`. -/
structure GradeResult where
  criteria : Criteria
  followUp : String
deriving DecidableEq, Repr

/-- `GradeOutcome` (scoring.ts).  `kappa` is always set by
`gradeAndScoreAnswer`, so it is not optional here. -/
structure GradeOutcome where
  criteria : Criteria
  total : ℤ
  followUp : String
  kappa : ℚ
deriving DecidableEq, Repr

/-- `computeAgreement` (scoring.ts): matching criteria out of 3. -/
def computeAgreement (a b : Criteria) : ℚ :=
  let agree : ℕ :=
    (if a.policyProcedure = b.policyProcedure then 1 else 0)
    + (if a.decisionQuality = b.decisionQuality then 1 else 0)
    + (if a.evidenceSpecificity = b.evidenceSpecificity then 1 else 0)
  (agree : ℚ) / 3

/-- The `dist` closure inside `gradeAndScoreAnswer`: L1 distance to the
tie-break criteria. -/
def l1Dist (x t : Criteria) : ℤ :=
  |x.policyProcedure - t.policyProcedure|
    + |x.decisionQuality - t.decisionQuality|
    + |x.evidenceSpecificity - t.evidenceSpecificity|

/-- `gradeAndScoreAnswer` (scoring.ts).  The oracle is deterministic per
seed, so its three possible responses (seed 1, seed 2, seed 3) are the
parameters `pass1`, `pass2`, `tie`; the returned `Bool` records whether
the seed-3 tie-break call was actually issued.  The threshold test
`agreement < 0.67` is exact here: `agreement ∈ {0, 1/3, 2/3, 1}` and the
IEEE-double comparison against `0.67` agrees with the rational comparison
against `67/100` on all four values (in particular `2/3 < 0.67` in both). -/
def gradeAndScoreAnswer (pass1 pass2 tie : GradeResult) : GradeOutcome × Bool :=
  let agreement := computeAgreement pass1.criteria pass2.criteria
  let chosenAndCalled :=
    if agreement < 67/100 then
      let chosen0 :=
        if l1Dist pass1.criteria tie.criteria ≤ l1Dist pass2.criteria tie.criteria
        then pass1 else pass2
      let chosen1 :=
        if chosen0.followUp = "" ∧ ¬ tie.followUp = ""
        then { chosen0 with followUp := tie.followUp } else chosen0
      (chosen1, true)
    else (pass1, false)
  let chosen := chosenAndCalled.1
  let score := scoreBarsCriterion chosen.criteria
  ({ criteria := score.criteria, total := score.total,
     followUp := chosen.followUp, kappa := agreement },
   chosenAndCalled.2)

/-! ### apps/api/src/services/assessmentHelpers.ts — checkStopRules -/

structure StopRuleResult where
  shouldStop : Bool
  reason : Option String
  error : Option String
deriving DecidableEq, Repr

/-- `checkStopRules` (assessmentHelpers.ts), decision part.
`MAX_ITEMS = MAX_ASSESSMENT_ITEMS` and the `durationMinutes` parameter
defaults to `DEFAULT_ASSESSMENT_DURATION_MINUTES` at call sites.
`startedAt : Option ℤ` models a present and parseable timestamp in
milliseconds (`startedAt` truthy and `Number.isFinite(Date.parse(...))`);
`Number.isFinite(numItems)` is always true for `ℕ`.  The accompanying
database writes (mark finished, revoke sessions) are the `markFinished`
and `revokeSessions` updates of the submit-path model below. -/
def checkStopRules (numItems : ℕ) (startedAt : Option ℤ)
    (durationMinutes : ℚ) (now : ℤ) : StopRuleResult :=
  if numItems ≥ MAX_ASSESSMENT_ITEMS then
    { shouldStop := true, reason := some "MAX_ITEMS", error := some "MaxItemsReached" }
  else
    match startedAt with
    | some startedAtMs =>
      let durationMs := durationMinutes * 60 * 1000
      let elapsedMs : ℤ := now - startedAtMs
      if (elapsedMs : ℚ) > durationMs then
        { shouldStop := true, reason := some "TIME", error := some "TimeExpired" }
      else { shouldStop := false, reason := none, error := none }
    | none => { shouldStop := false, reason := none, error := none }

/-! ### apps/api/src/routes/assessments.ts — the `/submit` handler

Database rows and the explicit-state semantics of `withTransaction`
(db.ts): `BEGIN`, run the body, `COMMIT` on success; on a thrown error,
`ROLLBACK` — every write the body made is discarded — and the error
propagates. -/

structure AssessmentRow where
  id : String
  startedAt : Option ℤ
  finishedAt : Option ℤ
  stopReason : Option String
  jobId : String
deriving DecidableEq, Repr

structure ItemEventRow where
  id : ℕ
  assessmentId : String
  itemId : String
  tStart : ℤ
  tEnd : Option ℤ
  answerText : String
  questionText : String
  score : Option BarsQuestionScore
deriving DecidableEq, Repr

structure SessionRow where
  id : ℕ
  assessmentId : String
  revokedAt : Option ℤ
deriving DecidableEq, Repr

structure Db where
  assessments : List AssessmentRow
  itemEvents : List ItemEventRow
  sessions : List SessionRow
  nextEventId : ℕ
deriving DecidableEq, Repr

/-- Errors thrown inside the submit transaction; `pgUnique23505` is the
driver error with `code === '23505'` raised by the unique index
`idx_item_events_assessment_item` on `(assessment_id, item_id)`
(migrations/005_constraints.sql). -/
inductive TxError
| assessmentNotFound
| assessmentFinished
| maxItemsReached
| insertFailed
| pgUnique23505
deriving DecidableEq, Repr

/-- `select count(1) from item_events where assessment_id = $1`. -/
def countItems (db : Db) (aid : String) : ℕ :=
  (db.itemEvents.filter (fun e => decide (e.assessmentId = aid))).length

/-- Row effect of `update assessments set finished_at = now(),
stop_reason = $2 where id = $1 and finished_at is null`. -/
def finishUpd (aid reason : String) (now : ℤ) (a : AssessmentRow) : AssessmentRow :=
  if a.id = aid ∧ a.finishedAt = none
  then { a with finishedAt := some now, stopReason := some reason } else a

/-- `update assessments set finished_at = now(), stop_reason = $2
where id = $1 and finished_at is null`. -/
def markFinished (db : Db) (aid reason : String) (now : ℤ) : Db :=
  { db with assessments := db.assessments.map (finishUpd aid reason now) }

/-- Row effect of `update sessions set revoked_at = now()
where assessment_id = $1 and revoked_at is null`. -/
def revokeUpd (aid : String) (now : ℤ) (s : SessionRow) : SessionRow :=
  if s.assessmentId = aid ∧ s.revokedAt = none
  then { s with revokedAt := some now } else s

/-- `update sessions set revoked_at = now()
where assessment_id = $1 and revoked_at is null`. -/
def revokeSessions (db : Db) (aid : String) (now : ℤ) : Db :=
  { db with sessions := db.sessions.map (revokeUpd aid now) }

/-- Whether a row for `(assessmentId, itemId)` already exists — the
condition under which the insert raises the 23505 unique violation. -/
def hasItemEvent (db : Db) (aid itemId : String) : Bool :=
  db.itemEvents.any (fun e => decide (e.assessmentId = aid) && decide (e.itemId = itemId))

/-- The row created by `insert into item_events (assessment_id, item_id,
t_start, response, events) values (...)`: no score and no end time yet. -/
def newRow (evId : ℕ) (aid itemId answerText questionText : String) (now : ℤ) : ItemEventRow :=
  { id := evId, assessmentId := aid, itemId := itemId, tStart := now,
    tEnd := none, answerText := answerText, questionText := questionText,
    score := none }

/-- Body of the submit transaction (assessments.ts, inside
`withTransaction`): lock and read the assessment row, re-check finished,
count items, on `count ≥ MAX_ASSESSMENT_ITEMS` run the finish/revoke
updates and throw `MaxItemsReached`, otherwise insert the item event.
Returns the state as mutated so far together with the outcome. -/
def submitTxBody (aid itemId answerText finalQuestionText : String) (now : ℤ)
    (db : Db) : Db × Except TxError ℕ :=
  match db.assessments.find? (fun a => decide (a.id = aid)) with
  | none => (db, Except.error TxError.assessmentNotFound)
  | some a =>
    if a.finishedAt.isSome then (db, Except.error TxError.assessmentFinished)
    else
      let numItems := countItems db aid
      if numItems ≥ MAX_ASSESSMENT_ITEMS then
        let db1 := markFinished db aid "MAX_ITEMS" now
        let db2 := revokeSessions db1 aid now
        (db2, Except.error TxError.maxItemsReached)
      else
        if hasItemEvent db aid itemId then (db, Except.error TxError.pgUnique23505)
        else
          ({ db with
              itemEvents := db.itemEvents
                ++ [newRow db.nextEventId aid itemId answerText finalQuestionText now],
              nextEventId := db.nextEventId + 1 },
           Except.ok db.nextEventId)

/-- `withTransaction` (db.ts): commit the body's writes on success,
discard them (ROLLBACK) on error. -/
def withTransactionSem (db : Db) (body : Db → Db × Except TxError ℕ) :
    Db × Except TxError ℕ :=
  match body db with
  | (db1, Except.ok v) => (db1, Except.ok v)
  | (_, Except.error e) => (db, Except.error e)

/-- Observable outcome of one `/submit` request: the success payload, an
error response sent by `sendError(reply, status, code, ...)`, or a
rethrown error surfacing as an HTTP 500. -/
inductive SubmitResponse
| ok (itemEventId : ℕ) (total : ℤ)
| err (status : ℕ) (code : String)
| serverError
deriving DecidableEq, Repr

/-- Row effect of `update assessments set
started_at = coalesce(started_at, now()) where id = $1`. -/
def startedUpd (aid : String) (now : ℤ) (a : AssessmentRow) : AssessmentRow :=
  if a.id = aid ∧ a.startedAt = none
  then { a with startedAt := some now } else a

/-- The `update assessments set started_at = coalesce(started_at, now())`
part of `fetchAssessmentMetadata(assessmentId, true)`
(assessmentHelpers.ts); it commits on its own, outside the submit
transaction. -/
def setStartedIfNull (db : Db) (aid : String) (now : ℤ) : Db :=
  { db with assessments := db.assessments.map (startedUpd aid now) }

/-- Row effect of `update item_events set t_end = now(),
score = $1 where id = $2` (the post-grading score update). -/
def scoreUpd (evId : ℕ) (total : ℤ) (criteria : Criteria) (now : ℤ)
    (e : ItemEventRow) : ItemEventRow :=
  if e.id = evId
  then { e with tEnd := some now, score := some { total := total, criteria := criteria } }
  else e

/-- The `/submit` handler (assessments.ts), state-passing model.
`questionText` is the optional request field; `bankText jobId itemId`
models `getQuestionText`; `gradeResult` is the outcome of the grading
step (`gradeAndScoreAnswer` over the oracle), which runs after the insert
transaction has committed — `Except.error` models an oracle failure,
which the handler's catch block does not recognise and rethrows (500).
Error mapping from the catch block: `23505 → 409 DuplicateSubmission`,
`MaxItemsReached → 410 AssessmentFinished`,
`AssessmentFinished → 410 AssessmentFinished`, anything else rethrown. -/
def submitAnswer (db : Db) (aid itemId answerText : String)
    (questionText : Option String) (bankText : String → String → Option String)
    (gradeResult : Except Unit GradeOutcome) (now : ℤ) : Db × SubmitResponse :=
  match db.assessments.find? (fun a => decide (a.id = aid)) with
  | none => (db, SubmitResponse.err 404 "AssessmentNotFound")
  | some a0 =>
    let db0 := setStartedIfNull db aid now
    if a0.finishedAt.isSome then (db0, SubmitResponse.err 410 "AssessmentFinished")
    else
      let finalQuestionText :=
        questionText.getD ((bankText a0.jobId itemId).getD ("Item " ++ itemId))
      match withTransactionSem db0 (submitTxBody aid itemId answerText finalQuestionText now) with
      | (db1, Except.error TxError.pgUnique23505) =>
        (db1, SubmitResponse.err 409 "DuplicateSubmission")
      | (db1, Except.error TxError.maxItemsReached) =>
        (db1, SubmitResponse.err 410 "AssessmentFinished")
      | (db1, Except.error TxError.assessmentFinished) =>
        (db1, SubmitResponse.err 410 "AssessmentFinished")
      | (db1, Except.error _) => (db1, SubmitResponse.serverError)
      | (db1, Except.ok evId) =>
        match gradeResult with
        | Except.error _ => (db1, SubmitResponse.serverError)
        | Except.ok outcome =>
          let db2 :=
            { db1 with itemEvents :=
                db1.itemEvents.map (scoreUpd evId outcome.total outcome.criteria now) }
          (db2, SubmitResponse.ok evId outcome.total)

/-! ### Claim-side definitions (spec wording, for refinement comparison)
and concrete fixtures used by witnesses and counterexamples. -/

/-- Spec wording: visibilitychange — 1 occurrence → +0.05, 2+ occurrences
→ flat +0.15 (saturating), none → 0. -/
def specVisContribution (v : ℕ) : ℚ :=
  if v = 1 then 1/20 else if 2 ≤ v then 3/20 else 0

/-- Spec wording: paste — +0.05 for the first occurrence, +0.10 for each
additional one; none → 0. -/
def specPasteContribution (p : ℕ) : ℚ :=
  if p = 0 then 0 else 1/20 + ((p - 1 : ℕ) : ℚ) * (1/10)

/-- Spec wording: latencyOutlier — +0.10 per occurrence, uncapped. -/
def specLatencyContribution (l : ℕ) : ℚ := (l : ℚ) * (1/10)

/-- Number of events of type `ty` carrying bucket key `k`. -/
def countTyped (events : List IntegrityEvent) (k : String) (ty : EventType) : ℕ :=
  (events.filter (fun e => decide (keyOf e = k) && decide (e.type1 = ty))).length

/-- Spec wording: per-item risk contribution — visibility, paste and
latency terms only; focus and blur events are unscored. -/
def specItemContribution (events : List IntegrityEvent) (k : String) : ℚ :=
  specVisContribution (countTyped events k EventType.visibilitychange)
    + specPasteContribution (countTyped events k EventType.paste)
    + specLatencyContribution (countTyped events k EventType.latencyOutlier)

/-- Replace a missing `itemId` by the sentinel key the grouping uses:
events without an `itemId` behave exactly as if tagged `"unknown"`. -/
def withNormalizedItemId (e : IntegrityEvent) : IntegrityEvent :=
  { e with itemId := some (keyOf e) }

/-- Schema validation guarantee: each criterion is an integer in [0,3]. -/
def criteriaInRange (c : Criteria) : Prop :=
  0 ≤ c.policyProcedure ∧ c.policyProcedure ≤ 3 ∧
  0 ≤ c.decisionQuality ∧ c.decisionQuality ≤ 3 ∧
  0 ≤ c.evidenceSpecificity ∧ c.evidenceSpecificity ≤ 3

/-- A one-item bank used by the C9 witness. -/
def witnessItem : ItemTemplate :=
  { id := "e1", difficulty := Difficulty.easy, template := "E1",
    params := [], tSection := Section1.communication }

/-- Expected selection result for the C9 witness. -/
def witnessSelection : SelectionResult :=
  { nextItem := witnessItem,
    nextState := { step := Difficulty.easy,
                   askedIds := insert "e1" (∅ : Finset String),
                   maxItems := 18 } }

/-- An active assessment used by the concrete submit-path scenarios. -/
def assessmentA1 : AssessmentRow :=
  { id := "a1", startedAt := some 0, finishedAt := none,
    stopReason := none, jobId := "finance-ap" }

/-- The i-th pre-existing item event of the concrete scenarios. -/
def mkSeedEvent (i : ℕ) : ItemEventRow :=
  { id := i, assessmentId := "a1", itemId := "q" ++ toString i, tStart := 0,
    tEnd := none, answerText := "seed answer", questionText := "seed question",
    score := none }

/-- An unrevoked session for the concrete scenarios. -/
def sessionS1 : SessionRow := { id := 1, assessmentId := "a1", revokedAt := none }

/-- Database with the active assessment `a1`, `n` item events already
submitted for it, and one active session. -/
def dbWithEvents (n : ℕ) : Db :=
  { assessments := [assessmentA1],
    itemEvents := (List.range n).map mkSeedEvent,
    sessions := [sessionS1],
    nextEventId := n }

/-- Question-bank lookup returning no text (forces the `Item ${itemId}`
fallback); concrete scenarios do not depend on bank contents. -/
def noBank : String → String → Option String := fun _ _ => none

/-- A successful grading outcome used by the concrete scenarios. -/
def gradeOutcome6 : GradeOutcome :=
  { criteria := { policyProcedure := 2, decisionQuality := 2, evidenceSpecificity := 2 },
    total := 6, followUp := "", kappa := 1 }

/-- C2 failing input: submit a 19th item to an assessment that already
has `MAX_ASSESSMENT_ITEMS` item events. -/
def submitAtMax : Db × SubmitResponse :=
  submitAnswer (dbWithEvents 18) "a1" "q_new" "late answer" none noBank
    (Except.ok gradeOutcome6) 1000

/-- C3 counterexample, first call: one slot remains (17 events). -/
def submit17first : Db × SubmitResponse :=
  submitAnswer (dbWithEvents 17) "a1" "q_dup" "first answer" none noBank
    (Except.ok gradeOutcome6) 100

/-- C3 counterexample, second (concurrent, serialized-after) call for the
same item. -/
def submit17second : Db × SubmitResponse :=
  submitAnswer submit17first.1 "a1" "q_dup" "second answer" none noBank
    (Except.ok gradeOutcome6) 200

/-- C10 counterexample, first call: insert committed, grading fails. -/
def submit17gradeFail : Db × SubmitResponse :=
  submitAnswer (dbWithEvents 17) "a1" "q_dup2" "first answer" none noBank
    (Except.error ()) 100

/-- C10 counterexample, retry of the same item after the grading failure. -/
def submit17retry : Db × SubmitResponse :=
  submitAnswer submit17gradeFail.1 "a1" "q_dup2" "retry answer" none noBank
    (Except.ok gradeOutcome6) 200

/-! ## Theorems -/

/-- C4: `transitionStep` steps one tier up when the score is at least 7
(easy→medium, medium→hard, hard stays hard), one tier down when the score
is at most 3 (hard→medium, medium→easy, easy stays easy), keeps the tier
unchanged for scores strictly between 3 and 7, and keeps the tier
unchanged when no score is given. -/
theorem transitionStep_spec :
    (∀ s : ℚ, 7 ≤ s →
      transitionStep Difficulty.easy (some s) = Difficulty.medium ∧
      transitionStep Difficulty.medium (some s) = Difficulty.hard ∧
      transitionStep Difficulty.hard (some s) = Difficulty.hard) ∧
    (∀ s : ℚ, s ≤ 3 →
      transitionStep Difficulty.hard (some s) = Difficulty.medium ∧
      transitionStep Difficulty.medium (some s) = Difficulty.easy ∧
      transitionStep Difficulty.easy (some s) = Difficulty.easy) ∧
    (∀ s : ℚ, 3 < s → s < 7 → ∀ d : Difficulty, transitionStep d (some s) = d) ∧
    (∀ d : Difficulty, transitionStep d none = d) := by
  refine ⟨?_, ?_, ?_, ?_⟩
  · intro s hs
    refine ⟨?_, ?_, ?_⟩ <;> simp [transitionStep, hs]
  · intro s hs
    have h7 : ¬ s ≥ 7 := by linarith
    refine ⟨?_, ?_, ?_⟩ <;> simp [transitionStep, h7, hs]
  · intro s h3 h7 d
    have h7n : ¬ s ≥ 7 := by linarith
    have h3n : ¬ s ≤ 3 := by linarith
    simp [transitionStep, h7n, h3n]
  · intro d
    rfl

/-- Witness for C4 at concrete inputs (the spec's own examples plus the
stable and no-score cases). -/
theorem transitionStep_spec_witness :
    transitionStep Difficulty.easy (some 7) = Difficulty.medium ∧
    transitionStep Difficulty.hard (some 7) = Difficulty.hard ∧
    transitionStep Difficulty.easy (some 3) = Difficulty.easy ∧
    transitionStep Difficulty.medium (some 5) = Difficulty.medium ∧
    transitionStep Difficulty.hard none = Difficulty.hard :=
  ⟨(transitionStep_spec.1 7 (by norm_num)).1,
   (transitionStep_spec.1 7 (by norm_num)).2.2,
   (transitionStep_spec.2.1 3 (by norm_num)).2.2,
   transitionStep_spec.2.2.1 5 (by norm_num) (by norm_num) Difficulty.medium,
   transitionStep_spec.2.2.2 Difficulty.hard⟩

/-- C7: `checkStopRules` stops with `MAX_ITEMS` whenever the item count
reaches the maximum (18), for every time configuration (so the time rule
is not evaluated); below the maximum it stops with `TIME` exactly when a
start time exists and the elapsed time strictly exceeds the configured
duration; otherwise it does not stop. -/
theorem checkStopRules_spec (numItems : ℕ) (startedAt : Option ℤ)
    (durationMinutes : ℚ) (now : ℤ) :
    (MAX_ASSESSMENT_ITEMS ≤ numItems →
      checkStopRules numItems startedAt durationMinutes now
        = { shouldStop := true, reason := some "MAX_ITEMS", error := some "MaxItemsReached" }) ∧
    (numItems < MAX_ASSESSMENT_ITEMS →
      ∀ s : ℤ, startedAt = some s →
        (durationMinutes * 60 * 1000 < ((now - s : ℤ) : ℚ) →
          checkStopRules numItems startedAt durationMinutes now
            = { shouldStop := true, reason := some "TIME", error := some "TimeExpired" }) ∧
        (¬ durationMinutes * 60 * 1000 < ((now - s : ℤ) : ℚ) →
          checkStopRules numItems startedAt durationMinutes now
            = { shouldStop := false, reason := none, error := none })) ∧
    (numItems < MAX_ASSESSMENT_ITEMS → startedAt = none →
      checkStopRules numItems startedAt durationMinutes now
        = { shouldStop := false, reason := none, error := none }) := by
  refine ⟨?_, ?_, ?_⟩
  · intro h
    simp [checkStopRules, h]
  · intro h s hs
    have hn : ¬ MAX_ASSESSMENT_ITEMS ≤ numItems := by omega
    subst hs
    constructor
    · intro ht
      push_cast at ht
      simp [checkStopRules, hn]
      linarith
    · intro ht
      push_cast at ht
      simp [checkStopRules, hn]
      linarith
  · intro h hs
    have hn : ¬ MAX_ASSESSMENT_ITEMS ≤ numItems := by omega
    subst hs
    simp [checkStopRules, hn]

/-- Witness for C7: 18 items stop with MAX_ITEMS even with ample time
left; 5 items with 16 elapsed minutes of a 15-minute budget stop with
TIME; 5 items within budget do not stop; 5 items with no start time do
not stop. -/
theorem checkStopRules_spec_witness :
    checkStopRules 18 (some 0) 15 0
      = { shouldStop := true, reason := some "MAX_ITEMS", error := some "MaxItemsReached" } ∧
    checkStopRules 5 (some 0) 15 960000
      = { shouldStop := true, reason := some "TIME", error := some "TimeExpired" } ∧
    checkStopRules 5 (some 0) 15 60000
      = { shouldStop := false, reason := none, error := none } ∧
    checkStopRules 5 none 15 0
      = { shouldStop := false, reason := none, error := none } :=
  ⟨(checkStopRules_spec 18 (some 0) 15 0).1 (by norm_num [MAX_ASSESSMENT_ITEMS]),
   ((checkStopRules_spec 5 (some 0) 15 960000).2.1 (by norm_num [MAX_ASSESSMENT_ITEMS]) 0 rfl).1
     (by norm_num),
   ((checkStopRules_spec 5 (some 0) 15 60000).2.1 (by norm_num [MAX_ASSESSMENT_ITEMS]) 0 rfl).2
     (by norm_num),
   (checkStopRules_spec 5 none 15 0).2.2 (by norm_num [MAX_ASSESSMENT_ITEMS]) rfl⟩

/-- C9: `selectNextItem` is pure — it never mutates its input state (the
source builds a fresh `Set` via `new Set([...state.askedIds, nextItem.id])`,
which the embedding reflects by returning a new `StaircaseState`).  On a
successful selection the returned state's `askedIds` is the input set
plus exactly the chosen item's id (which was not yet in the input set),
its `step` is `transitionStep` of the input step and last score, and
`maxItems` is unchanged. -/
theorem selectNextItem_frame (state : StaircaseState) (bank : List ItemTemplate)
    (lastScore : Option ℚ) (idx : ℕ) (res : SelectionResult)
    (h : selectNextItem state bank lastScore idx = some res) :
    res.nextState.askedIds = insert res.nextItem.id state.askedIds ∧
    res.nextItem.id ∉ state.askedIds ∧
    res.nextState.step = transitionStep state.step lastScore ∧
    res.nextState.maxItems = state.maxItems := by
  simp only [selectNextItem] at h
  split at h
  · exact absurd h (by simp)
  · split at h
    · exact absurd h (by simp)
    · rename_i pool hlen nextItem hget
      have hmem : nextItem ∈ bank.filter (fun i =>
          decide (i.difficulty = transitionStep state.step lastScore)
            && !(decide (i.id ∈ state.askedIds))) := List.get?_mem hget
      have hnotin : nextItem.id ∉ state.askedIds := by
        have := (List.mem_filter.mp hmem).2
        simp only [Bool.and_eq_true, Bool.not_eq_true', decide_eq_false_iff_not] at this
        exact this.2
      cases h
      exact ⟨rfl, hnotin, rfl, rfl⟩

/-- Witness for C9: a concrete successful selection from a one-item bank. -/
theorem selectNextItem_frame_witness :
    (selectNextItem (createInitialStaircaseState 18) [witnessItem] none 0
      = some witnessSelection) ∧
    witnessSelection.nextState.askedIds
      = insert witnessSelection.nextItem.id (createInitialStaircaseState 18).askedIds :=
  ⟨by decide,
   (selectNextItem_frame (createInitialStaircaseState 18) [witnessItem] none 0
      witnessSelection (by decide)).1⟩

/-- C1 counterexample: at the claim's own example, pass1 = {1,1,1} and
pass2 = {1,1,0} match on exactly 2 of 3 criteria, so the agreement ratio
is 2/3 — which is strictly below 0.67 — and `gradeAndScoreAnswer` DOES
issue the seed-3 tie-break call; with a tie-break result of {1,0,0} the
chosen pass is pass2 and the returned total is 2, not 3. -/
theorem gradeAndScoreAnswer_tiebreak_counterexample :
    computeAgreement { policyProcedure := 1, decisionQuality := 1, evidenceSpecificity := 1 }
        { policyProcedure := 1, decisionQuality := 1, evidenceSpecificity := 0 } = 2/3 ∧
    ((2 : ℚ)/3 < 67/100) ∧
    (gradeAndScoreAnswer
        { criteria := { policyProcedure := 1, decisionQuality := 1, evidenceSpecificity := 1 }, followUp := "" }
        { criteria := { policyProcedure := 1, decisionQuality := 1, evidenceSpecificity := 0 }, followUp := "" }
        { criteria := { policyProcedure := 1, decisionQuality := 0, evidenceSpecificity := 0 }, followUp := "" }).2
      = true ∧
    (gradeAndScoreAnswer
        { criteria := { policyProcedure := 1, decisionQuality := 1, evidenceSpecificity := 1 }, followUp := "" }
        { criteria := { policyProcedure := 1, decisionQuality := 1, evidenceSpecificity := 0 }, followUp := "" }
        { criteria := { policyProcedure := 1, decisionQuality := 0, evidenceSpecificity := 0 }, followUp := "" }).1.total
      = 2 := by
  refine ⟨by norm_num [computeAgreement], by norm_num, ?_, ?_⟩ <;>
    norm_num [gradeAndScoreAnswer, computeAgreement, l1Dist, scoreBarsCriterion]

/-- C1 amended: the seed-3 tie-break call is issued exactly when the
agreement ratio is strictly below 0.67.  Since the only possible ratios
are 0, 1/3, 2/3 and 1, and 2/3 < 0.67, a pair matching on exactly 2 of 3
criteria does trigger the tie-break; only agreement at or above 0.67
(i.e. full 3-of-3 agreement) skips it and accepts pass 1's criteria,
with total the sum of pass 1's criteria.  When the tie-break runs, pass 1
is chosen whenever its L1 distance to the tie-break result is at most
pass 2's (ties favour pass 1). -/
theorem gradeAndScoreAnswer_tiebreak_amended (p1 p2 t : GradeResult) :
    ((gradeAndScoreAnswer p1 p2 t).2 = true ↔
      computeAgreement p1.criteria p2.criteria < 67/100) ∧
    (67/100 ≤ computeAgreement p1.criteria p2.criteria →
      (gradeAndScoreAnswer p1 p2 t).2 = false ∧
      (gradeAndScoreAnswer p1 p2 t).1.criteria = p1.criteria ∧
      (gradeAndScoreAnswer p1 p2 t).1.total
        = p1.criteria.policyProcedure + p1.criteria.decisionQuality
            + p1.criteria.evidenceSpecificity) ∧
    (computeAgreement p1.criteria p2.criteria < 67/100 →
      l1Dist p1.criteria t.criteria ≤ l1Dist p2.criteria t.criteria →
      (gradeAndScoreAnswer p1 p2 t).2 = true ∧
      (gradeAndScoreAnswer p1 p2 t).1.criteria = p1.criteria) := by
  by_cases hag : computeAgreement p1.criteria p2.criteria < 67/100
  · refine ⟨by simp [gradeAndScoreAnswer, hag], ?_, ?_⟩
    · intro hge
      exact absurd hag (by linarith)
    · intro _ hdist
      refine ⟨by simp [gradeAndScoreAnswer, hag], ?_⟩
      simp only [gradeAndScoreAnswer, hag, if_true, if_pos hdist, scoreBarsCriterion]
      split <;> rfl
  · refine ⟨by simp [gradeAndScoreAnswer, hag], ?_, ?_⟩
    · intro _
      refine ⟨by simp [gradeAndScoreAnswer, hag], ?_, ?_⟩ <;>
        simp [gradeAndScoreAnswer, hag, scoreBarsCriterion]
    · intro hlt
      exact absurd hlt hag

/-- Witness for C1 amended: identical passes (agreement 1 ≥ 0.67) skip
the tie-break and keep pass 1; fully disagreeing passes (agreement 0)
trigger the tie-break and, with pass 1 closer to the tie-break result,
pass 1's criteria are kept. -/
theorem gradeAndScoreAnswer_tiebreak_amended_witness :
    ((gradeAndScoreAnswer
        { criteria := { policyProcedure := 1, decisionQuality := 1, evidenceSpecificity := 1 }, followUp := "" }
        { criteria := { policyProcedure := 1, decisionQuality := 1, evidenceSpecificity := 1 }, followUp := "" }
        { criteria := { policyProcedure := 0, decisionQuality := 0, evidenceSpecificity := 0 }, followUp := "" }).2
      = false ∧
      (gradeAndScoreAnswer
        { criteria := { policyProcedure := 1, decisionQuality := 1, evidenceSpecificity := 1 }, followUp := "" }
        { criteria := { policyProcedure := 1, decisionQuality := 1, evidenceSpecificity := 1 }, followUp := "" }
        { criteria := { policyProcedure := 0, decisionQuality := 0, evidenceSpecificity := 0 }, followUp := "" }).1.criteria
      = { policyProcedure := 1, decisionQuality := 1, evidenceSpecificity := 1 } ∧
      (gradeAndScoreAnswer
        { criteria := { policyProcedure := 1, decisionQuality := 1, evidenceSpecificity := 1 }, followUp := "" }
        { criteria := { policyProcedure := 1, decisionQuality := 1, evidenceSpecificity := 1 }, followUp := "" }
        { criteria := { policyProcedure := 0, decisionQuality := 0, evidenceSpecificity := 0 }, followUp := "" }).1.total
      = 3) ∧
    ((gradeAndScoreAnswer
        { criteria := { policyProcedure := 1, decisionQuality := 1, evidenceSpecificity := 1 }, followUp := "" }
        { criteria := { policyProcedure := 3, decisionQuality := 3, evidenceSpecificity := 3 }, followUp := "" }
        { criteria := { policyProcedure := 1, decisionQuality := 1, evidenceSpecificity := 0 }, followUp := "" }).2
      = true ∧
      (gradeAndScoreAnswer
        { criteria := { policyProcedure := 1, decisionQuality := 1, evidenceSpecificity := 1 }, followUp := "" }
        { criteria := { policyProcedure := 3, decisionQuality := 3, evidenceSpecificity := 3 }, followUp := "" }
        { criteria := { policyProcedure := 1, decisionQuality := 1, evidenceSpecificity := 0 }, followUp := "" }).1.criteria
      = { policyProcedure := 1, decisionQuality := 1, evidenceSpecificity := 1 }) :=
  ⟨(gradeAndScoreAnswer_tiebreak_amended _ _ _).2.1 (by norm_num [computeAgreement]),
   (gradeAndScoreAnswer_tiebreak_amended _ _ _).2.2 (by norm_num [computeAgreement])
     (by norm_num [l1Dist])⟩

/-- The criteria returned by `gradeAndScoreAnswer` are those of pass 1 or
of pass 2 (the tie-break result itself is never returned). -/
theorem gradeAndScoreAnswer_criteria_cases (p1 p2 t : GradeResult) :
    (gradeAndScoreAnswer p1 p2 t).1.criteria = p1.criteria ∨
    (gradeAndScoreAnswer p1 p2 t).1.criteria = p2.criteria := by
  by_cases hag : computeAgreement p1.criteria p2.criteria < 67/100
  · by_cases hd : l1Dist p1.criteria t.criteria ≤ l1Dist p2.criteria t.criteria
    · left
      simp only [gradeAndScoreAnswer, if_pos hag, if_pos hd, scoreBarsCriterion]
      split <;> rfl
    · right
      simp only [gradeAndScoreAnswer, if_pos hag, if_neg hd, scoreBarsCriterion]
      split <;> rfl
  · left
    simp only [gradeAndScoreAnswer, if_neg hag, scoreBarsCriterion]

/-- The total returned by `gradeAndScoreAnswer` is the sum of the
returned criteria. -/
theorem gradeAndScoreAnswer_total_eq (p1 p2 t : GradeResult) :
    (gradeAndScoreAnswer p1 p2 t).1.total
      = (gradeAndScoreAnswer p1 p2 t).1.criteria.policyProcedure
        + (gradeAndScoreAnswer p1 p2 t).1.criteria.decisionQuality
        + (gradeAndScoreAnswer p1 p2 t).1.criteria.evidenceSpecificity := by
  unfold gradeAndScoreAnswer
  split_ifs <;> rfl

/-- C8: for every `GradeOutcome` produced by `gradeAndScoreAnswer`, given
that the oracle passes carry criteria in [0,3], the total equals
policyProcedure + decisionQuality + evidenceSpecificity and lies in
[0, 9]. -/
theorem gradeAndScoreAnswer_total_bounds (p1 p2 t : GradeResult)
    (h1 : criteriaInRange p1.criteria) (h2 : criteriaInRange p2.criteria) :
    (gradeAndScoreAnswer p1 p2 t).1.total
      = (gradeAndScoreAnswer p1 p2 t).1.criteria.policyProcedure
        + (gradeAndScoreAnswer p1 p2 t).1.criteria.decisionQuality
        + (gradeAndScoreAnswer p1 p2 t).1.criteria.evidenceSpecificity ∧
    0 ≤ (gradeAndScoreAnswer p1 p2 t).1.total ∧
    (gradeAndScoreAnswer p1 p2 t).1.total ≤ 9 := by
  have htot := gradeAndScoreAnswer_total_eq p1 p2 t
  refine ⟨htot, ?_, ?_⟩ <;>
    rcases gradeAndScoreAnswer_criteria_cases p1 p2 t with h | h <;>
    rw [htot, h] <;>
    [obtain ⟨a1, a2, a3, a4, a5, a6⟩ := h1;
     obtain ⟨a1, a2, a3, a4, a5, a6⟩ := h2;
     obtain ⟨a1, a2, a3, a4, a5, a6⟩ := h1;
     obtain ⟨a1, a2, a3, a4, a5, a6⟩ := h2] <;>
    linarith

/-- Witness for C8 at a concrete pair of in-range passes. -/
theorem gradeAndScoreAnswer_total_bounds_witness :
    (gradeAndScoreAnswer
        { criteria := { policyProcedure := 1, decisionQuality := 2, evidenceSpecificity := 3 }, followUp := "" }
        { criteria := { policyProcedure := 0, decisionQuality := 2, evidenceSpecificity := 3 }, followUp := "" }
        { criteria := { policyProcedure := 1, decisionQuality := 2, evidenceSpecificity := 3 }, followUp := "" }).1.total
      = (gradeAndScoreAnswer
        { criteria := { policyProcedure := 1, decisionQuality := 2, evidenceSpecificity := 3 }, followUp := "" }
        { criteria := { policyProcedure := 0, decisionQuality := 2, evidenceSpecificity := 3 }, followUp := "" }
        { criteria := { policyProcedure := 1, decisionQuality := 2, evidenceSpecificity := 3 }, followUp := "" }).1.criteria.policyProcedure
        + (gradeAndScoreAnswer
        { criteria := { policyProcedure := 1, decisionQuality := 2, evidenceSpecificity := 3 }, followUp := "" }
        { criteria := { policyProcedure := 0, decisionQuality := 2, evidenceSpecificity := 3 }, followUp := "" }
        { criteria := { policyProcedure := 1, decisionQuality := 2, evidenceSpecificity := 3 }, followUp := "" }).1.criteria.decisionQuality
        + (gradeAndScoreAnswer
        { criteria := { policyProcedure := 1, decisionQuality := 2, evidenceSpecificity := 3 }, followUp := "" }
        { criteria := { policyProcedure := 0, decisionQuality := 2, evidenceSpecificity := 3 }, followUp := "" }
        { criteria := { policyProcedure := 1, decisionQuality := 2, evidenceSpecificity := 3 }, followUp := "" }).1.criteria.evidenceSpecificity ∧
    0 ≤ (gradeAndScoreAnswer
        { criteria := { policyProcedure := 1, decisionQuality := 2, evidenceSpecificity := 3 }, followUp := "" }
        { criteria := { policyProcedure := 0, decisionQuality := 2, evidenceSpecificity := 3 }, followUp := "" }
        { criteria := { policyProcedure := 1, decisionQuality := 2, evidenceSpecificity := 3 }, followUp := "" }).1.total ∧
    (gradeAndScoreAnswer
        { criteria := { policyProcedure := 1, decisionQuality := 2, evidenceSpecificity := 3 }, followUp := "" }
        { criteria := { policyProcedure := 0, decisionQuality := 2, evidenceSpecificity := 3 }, followUp := "" }
        { criteria := { policyProcedure := 1, decisionQuality := 2, evidenceSpecificity := 3 }, followUp := "" }).1.total ≤ 9 :=
  gradeAndScoreAnswer_total_bounds _ _ _
    (by norm_num [criteriaInRange]) (by norm_num [criteriaInRange])

/-- `startedUpd` never changes the row id. -/
theorem startedUpd_id (aid : String) (now : ℤ) (a : AssessmentRow) :
    (startedUpd aid now a).id = a.id := by
  unfold startedUpd
  split <;> rfl

/-- `startedUpd` never changes `finishedAt`. -/
theorem startedUpd_finishedAt (aid : String) (now : ℤ) (a : AssessmentRow) :
    (startedUpd aid now a).finishedAt = a.finishedAt := by
  unfold startedUpd
  split <;> rfl

/-- `scoreUpd` never changes the row's assessment id. -/
theorem scoreUpd_assessmentId (i : ℕ) (tot : ℤ) (c : Criteria) (now : ℤ)
    (e : ItemEventRow) : (scoreUpd i tot c now e).assessmentId = e.assessmentId := by
  unfold scoreUpd
  split <;> rfl

/-- `scoreUpd` never changes the row's item id. -/
theorem scoreUpd_itemId (i : ℕ) (tot : ℤ) (c : Criteria) (now : ℤ)
    (e : ItemEventRow) : (scoreUpd i tot c now e).itemId = e.itemId := by
  unfold scoreUpd
  split <;> rfl

/-- Successful insert branch of the submit transaction body. -/
theorem submitTxBody_insert (A : AssessmentRow) (events : List ItemEventRow)
    (sess : List SessionRow) (nid : ℕ) (aid itemId ans qt : String) (now : ℤ)
    (hid : A.id = aid) (hfin : A.finishedAt = none)
    (hcount : (events.filter (fun e => decide (e.assessmentId = aid))).length
        < MAX_ASSESSMENT_ITEMS)
    (hnodup : ∀ e ∈ events, ¬(e.assessmentId = aid ∧ e.itemId = itemId)) :
    submitTxBody aid itemId ans qt now ⟨[A], events, sess, nid⟩
      = (⟨[A], events ++ [newRow nid aid itemId ans qt now], sess, nid + 1⟩,
         Except.ok nid) := by
  have hfind : List.find? (fun a => decide (a.id = aid)) [A] = some A :=
    List.find?_cons_of_pos _ (by simp [hid])
  have hdup : hasItemEvent ⟨[A], events, sess, nid⟩ aid itemId = false := by
    unfold hasItemEvent
    rw [List.any_eq_false]
    intro e he
    simp only [Bool.and_eq_true, decide_eq_true_eq, not_and]
    exact fun hc hi => hnodup e he ⟨hc, hi⟩
  have hlt : ¬ countItems ⟨[A], events, sess, nid⟩ aid ≥ MAX_ASSESSMENT_ITEMS := by
    unfold countItems
    dsimp only
    omega
  unfold submitTxBody
  rw [hfind]
  simp only [hfin, Option.isSome_none, Bool.false_eq_true, if_false, hlt, hdup,
    if_neg hlt, Bool.false_eq_true]

/-- Duplicate-insert branch of the submit transaction body: a row for the
pair already exists, the count check passes, and the unique index raises
23505 — the body leaves the state unchanged. -/
theorem submitTxBody_dup (A : AssessmentRow) (events : List ItemEventRow)
    (sess : List SessionRow) (nid : ℕ) (aid itemId ans qt : String) (now : ℤ)
    (hid : A.id = aid) (hfin : A.finishedAt = none)
    (hcount : (events.filter (fun e => decide (e.assessmentId = aid))).length
        < MAX_ASSESSMENT_ITEMS)
    (hdup : ∃ e ∈ events, e.assessmentId = aid ∧ e.itemId = itemId) :
    submitTxBody aid itemId ans qt now ⟨[A], events, sess, nid⟩
      = (⟨[A], events, sess, nid⟩, Except.error TxError.pgUnique23505) := by
  have hfind : List.find? (fun a => decide (a.id = aid)) [A] = some A :=
    List.find?_cons_of_pos _ (by simp [hid])
  have hdup2 : hasItemEvent ⟨[A], events, sess, nid⟩ aid itemId = true := by
    unfold hasItemEvent
    rw [List.any_eq_true]
    obtain ⟨e, he, h1, h2⟩ := hdup
    exact ⟨e, he, by simp [h1, h2]⟩
  have hlt : ¬ countItems ⟨[A], events, sess, nid⟩ aid ≥ MAX_ASSESSMENT_ITEMS := by
    unfold countItems
    dsimp only
    omega
  unfold submitTxBody
  rw [hfind]
  simp only [hfin, Option.isSome_none, Bool.false_eq_true, if_false,
    if_neg hlt, hdup2, if_true]

/-- Full run of `/submit` in the successful-insert, successful-grading
case: the insert transaction commits, grading succeeds, and the score
update is applied to the inserted row. -/
theorem submitAnswer_ok_run (A : AssessmentRow) (events : List ItemEventRow)
    (sess : List SessionRow) (nid : ℕ) (aid itemId ans : String)
    (q : Option String) (bank : String → String → Option String)
    (g : GradeOutcome) (now : ℤ)
    (hid : A.id = aid) (hfin : A.finishedAt = none)
    (hcount : (events.filter (fun e => decide (e.assessmentId = aid))).length
        < MAX_ASSESSMENT_ITEMS)
    (hnodup : ∀ e ∈ events, ¬(e.assessmentId = aid ∧ e.itemId = itemId)) :
    submitAnswer ⟨[A], events, sess, nid⟩ aid itemId ans q bank (Except.ok g) now
      = (⟨[startedUpd aid now A],
          (events ++ [newRow nid aid itemId ans
              (q.getD ((bank A.jobId itemId).getD ("Item " ++ itemId))) now]).map
            (scoreUpd nid g.total g.criteria now),
          sess, nid + 1⟩,
         SubmitResponse.ok nid g.total) := by
  have hfindA : List.find? (fun a => decide (a.id = aid)) [A] = some A :=
    List.find?_cons_of_pos _ (by simp [hid])
  have htx := submitTxBody_insert (startedUpd aid now A) events sess nid aid itemId ans
    (q.getD ((bank A.jobId itemId).getD ("Item " ++ itemId))) now
    (by rw [startedUpd_id]; exact hid) (by rw [startedUpd_finishedAt]; exact hfin)
    hcount hnodup
  unfold submitAnswer
  rw [hfindA]
  simp only [hfin, Option.isSome_none, Bool.false_eq_true, if_false]
  unfold setStartedIfNull withTransactionSem
  simp only [List.map_cons, List.map_nil]
  rw [htx]

/-- Full run of `/submit` when the insert transaction commits but the
grading step then fails: the handler rethrows (HTTP 500) and the inserted
row keeps `score = none` and `tEnd = none`. -/
theorem submitAnswer_gradeFail_run (A : AssessmentRow) (events : List ItemEventRow)
    (sess : List SessionRow) (nid : ℕ) (aid itemId ans : String)
    (q : Option String) (bank : String → String → Option String) (now : ℤ)
    (hid : A.id = aid) (hfin : A.finishedAt = none)
    (hcount : (events.filter (fun e => decide (e.assessmentId = aid))).length
        < MAX_ASSESSMENT_ITEMS)
    (hnodup : ∀ e ∈ events, ¬(e.assessmentId = aid ∧ e.itemId = itemId)) :
    submitAnswer ⟨[A], events, sess, nid⟩ aid itemId ans q bank (Except.error ()) now
      = (⟨[startedUpd aid now A],
          events ++ [newRow nid aid itemId ans
              (q.getD ((bank A.jobId itemId).getD ("Item " ++ itemId))) now],
          sess, nid + 1⟩,
         SubmitResponse.serverError) := by
  have hfindA : List.find? (fun a => decide (a.id = aid)) [A] = some A :=
    List.find?_cons_of_pos _ (by simp [hid])
  have htx := submitTxBody_insert (startedUpd aid now A) events sess nid aid itemId ans
    (q.getD ((bank A.jobId itemId).getD ("Item " ++ itemId))) now
    (by rw [startedUpd_id]; exact hid) (by rw [startedUpd_finishedAt]; exact hfin)
    hcount hnodup
  unfold submitAnswer
  rw [hfindA]
  simp only [hfin, Option.isSome_none, Bool.false_eq_true, if_false]
  unfold setStartedIfNull withTransactionSem
  simp only [List.map_cons, List.map_nil]
  rw [htx]

/-- Full run of `/submit` when a row for the pair already exists and the
count check still passes: the unique-index violation is mapped to
`409 DuplicateSubmission` and the state is unchanged apart from the
started-at update. -/
theorem submitAnswer_dup_run (A : AssessmentRow) (events : List ItemEventRow)
    (sess : List SessionRow) (nid : ℕ) (aid itemId ans : String)
    (q : Option String) (bank : String → String → Option String)
    (g : Except Unit GradeOutcome) (now : ℤ)
    (hid : A.id = aid) (hfin : A.finishedAt = none)
    (hcount : (events.filter (fun e => decide (e.assessmentId = aid))).length
        < MAX_ASSESSMENT_ITEMS)
    (hdup : ∃ e ∈ events, e.assessmentId = aid ∧ e.itemId = itemId) :
    submitAnswer ⟨[A], events, sess, nid⟩ aid itemId ans q bank g now
      = (⟨[startedUpd aid now A], events, sess, nid⟩,
         SubmitResponse.err 409 "DuplicateSubmission") := by
  have hfindA : List.find? (fun a => decide (a.id = aid)) [A] = some A :=
    List.find?_cons_of_pos _ (by simp [hid])
  have htx := submitTxBody_dup (startedUpd aid now A) events sess nid aid itemId ans
    (q.getD ((bank A.jobId itemId).getD ("Item " ++ itemId))) now
    (by rw [startedUpd_id]; exact hid) (by rw [startedUpd_finishedAt]; exact hfin)
    hcount hdup
  unfold submitAnswer
  rw [hfindA]
  simp only [hfin, Option.isSome_none, Bool.false_eq_true, if_false]
  unfold setStartedIfNull withTransactionSem
  simp only [List.map_cons, List.map_nil]
  rw [htx]

/-- C2 (code bug evidence): submitting once the assessment already holds
`MAX_ASSESSMENT_ITEMS` item events takes the MAX_ITEMS branch, but the
`finished_at`/`stop_reason` update and the session revocation it performs
are rolled back together with the transaction when `MaxItemsReached` is
thrown, and the handler answers `410 AssessmentFinished` rather than a
`MaxItemsReached` error: afterwards the assessment is still unfinished
(`finishedAt = none`, `stopReason = none`), the session is still active,
and no item event was inserted. -/
theorem submitAnswer_maxItems_rolled_back :
    submitAtMax.2 = SubmitResponse.err 410 "AssessmentFinished" ∧
    submitAtMax.2 ≠ SubmitResponse.err 410 "MaxItemsReached" ∧
    submitAtMax.1.assessments = [assessmentA1] ∧
    submitAtMax.1.sessions = [sessionS1] ∧
    submitAtMax.1.itemEvents.length = 18 := by
  refine ⟨by decide, by decide, by decide, by decide, by decide⟩

/-- C3 counterexample: with exactly one slot left under the maximum
(17 existing items), two serialized submissions of the same
`(assessmentId, itemId)` do NOT produce a `DuplicateSubmission` failure
for the loser: the first succeeds, and the second hits the max-items rule
before the duplicate check and fails `410 AssessmentFinished` instead.
Exactly one item-event row for the pair exists afterwards. -/
theorem submit_concurrent_duplicate_counterexample :
    submit17first.2 = SubmitResponse.ok 17 6 ∧
    submit17second.2 = SubmitResponse.err 410 "AssessmentFinished" ∧
    submit17second.2 ≠ SubmitResponse.err 409 "DuplicateSubmission" ∧
    (submit17second.1.itemEvents.filter
        (fun e => decide (e.assessmentId = "a1") && decide (e.itemId = "q_dup"))).length
      = 1 := by
  refine ⟨by decide, by decide, by decide, by decide⟩

/-- C10 counterexample: after a committed insert whose grading step
fails, the row persists unscored, but when the insert had filled the last
slot under the maximum (17 prior items), the retry fails the max-items
rule (`410 AssessmentFinished`), not `DuplicateSubmission`. -/
theorem submit_retry_after_gradeFail_counterexample :
    submit17gradeFail.2 = SubmitResponse.serverError ∧
    (submit17gradeFail.1.itemEvents.filter
        (fun e => decide (e.assessmentId = "a1") && decide (e.itemId = "q_dup2"))).map
        (fun e => (e.score, e.tEnd))
      = [(none, none)] ∧
    submit17retry.2 = SubmitResponse.err 410 "AssessmentFinished" ∧
    submit17retry.2 ≠ SubmitResponse.err 409 "DuplicateSubmission" := by
  refine ⟨by decide, by decide, by decide, by decide⟩

/-- C3 amended: two serialized submissions (the row lock serializes the
stop-check-and-insert sequences) of the same `(assessmentId, itemId)`
against an active assessment with no existing row for the item and at
least two slots free under the maximum: the first succeeds, the second
fails `409 DuplicateSubmission`, and exactly one item-event row for the
pair exists afterwards.  (With exactly one slot free the second call
instead fails the max-items rule — see the counterexample.) -/
theorem submit_concurrent_duplicate_amended
    (A : AssessmentRow) (events : List ItemEventRow) (sess : List SessionRow)
    (nid : ℕ) (aid itemId ans1 ans2 : String) (q1 q2 : Option String)
    (bank : String → String → Option String) (g1 : GradeOutcome)
    (g2 : Except Unit GradeOutcome) (now1 now2 : ℤ)
    (hid : A.id = aid) (hfin : A.finishedAt = none)
    (hcount : (events.filter (fun e => decide (e.assessmentId = aid))).length ≤ 16)
    (hnodup : ∀ e ∈ events, ¬(e.assessmentId = aid ∧ e.itemId = itemId)) :
    (submitAnswer ⟨[A], events, sess, nid⟩ aid itemId ans1 q1 bank
        (Except.ok g1) now1).2 = SubmitResponse.ok nid g1.total ∧
    (submitAnswer (submitAnswer ⟨[A], events, sess, nid⟩ aid itemId ans1 q1 bank
          (Except.ok g1) now1).1 aid itemId ans2 q2 bank g2 now2).2
      = SubmitResponse.err 409 "DuplicateSubmission" ∧
    ((submitAnswer (submitAnswer ⟨[A], events, sess, nid⟩ aid itemId ans1 q1 bank
          (Except.ok g1) now1).1 aid itemId ans2 q2 bank g2 now2).1.itemEvents.filter
        (fun e => decide (e.assessmentId = aid) && decide (e.itemId = itemId))).length
      = 1 := by
  have h18 : (events.filter (fun e => decide (e.assessmentId = aid))).length
      < MAX_ASSESSMENT_ITEMS := by
    unfold MAX_ASSESSMENT_ITEMS
    omega
  have h1 := submitAnswer_ok_run A events sess nid aid itemId ans1 q1 bank g1 now1
    hid hfin h18 hnodup
  rw [h1]
  have hcompA : ((fun e => decide (e.assessmentId = aid))
      ∘ scoreUpd nid g1.total g1.criteria now1) = fun e => decide (e.assessmentId = aid) := by
    funext e
    simp [Function.comp, scoreUpd_assessmentId]
  have hcompP : ((fun e => decide (e.assessmentId = aid) && decide (e.itemId = itemId))
      ∘ scoreUpd nid g1.total g1.criteria now1)
      = fun e => decide (e.assessmentId = aid) && decide (e.itemId = itemId) := by
    funext e
    simp [Function.comp, scoreUpd_assessmentId, scoreUpd_itemId]
  have hrow1A : (newRow nid aid itemId ans1
      (q1.getD ((bank A.jobId itemId).getD ("Item " ++ itemId))) now1).assessmentId = aid := rfl
  have hrow1I : (newRow nid aid itemId ans1
      (q1.getD ((bank A.jobId itemId).getD ("Item " ++ itemId))) now1).itemId = itemId := rfl
  have hpairnil : events.filter
      (fun e => decide (e.assessmentId = aid) && decide (e.itemId = itemId)) = [] := by
    rw [List.filter_eq_nil_iff]
    intro e he
    simp only [Bool.and_eq_true, decide_eq_true_eq, not_and]
    exact fun hc hi => hnodup e he ⟨hc, hi⟩
  have hcount2 : (((events ++ [newRow nid aid itemId ans1
        (q1.getD ((bank A.jobId itemId).getD ("Item " ++ itemId))) now1]).map
          (scoreUpd nid g1.total g1.criteria now1)).filter
        (fun e => decide (e.assessmentId = aid))).length < MAX_ASSESSMENT_ITEMS := by
    rw [List.filter_map, hcompA, List.length_map, List.filter_append,
      List.length_append]
    have hone := List.length_filter_le (fun e => decide (e.assessmentId = aid))
      [newRow nid aid itemId ans1
        (q1.getD ((bank A.jobId itemId).getD ("Item " ++ itemId))) now1]
    simp only [List.length_cons, List.length_nil] at hone
    unfold MAX_ASSESSMENT_ITEMS
    omega
  have hdup2 : ∃ e ∈ (events ++ [newRow nid aid itemId ans1
        (q1.getD ((bank A.jobId itemId).getD ("Item " ++ itemId))) now1]).map
          (scoreUpd nid g1.total g1.criteria now1),
      e.assessmentId = aid ∧ e.itemId = itemId := by
    refine ⟨scoreUpd nid g1.total g1.criteria now1 (newRow nid aid itemId ans1
        (q1.getD ((bank A.jobId itemId).getD ("Item " ++ itemId))) now1),
      List.mem_map_of_mem _ (List.mem_append_right _ (List.mem_singleton_self _)), ?_, ?_⟩
    · rw [scoreUpd_assessmentId, hrow1A]
    · rw [scoreUpd_itemId, hrow1I]
  have h2 := submitAnswer_dup_run (startedUpd aid now1 A)
    ((events ++ [newRow nid aid itemId ans1
        (q1.getD ((bank A.jobId itemId).getD ("Item " ++ itemId))) now1]).map
      (scoreUpd nid g1.total g1.criteria now1))
    sess (nid + 1) aid itemId ans2 q2 bank g2 now2
    (by rw [startedUpd_id]; exact hid) (by rw [startedUpd_finishedAt]; exact hfin)
    hcount2 hdup2
  rw [h2]
  refine ⟨rfl, rfl, ?_⟩
  rw [List.filter_map, hcompP, List.length_map, List.filter_append, hpairnil]
  simp [newRow]

/-- Witness for C3 amended at a concrete state: active assessment, five
existing items, no row for `q_dup`. -/
theorem submit_concurrent_duplicate_amended_witness :
    (submitAnswer ⟨[assessmentA1], (List.range 5).map mkSeedEvent, [sessionS1], 5⟩
        "a1" "q_dup" "first" none noBank (Except.ok gradeOutcome6) 100).2
      = SubmitResponse.ok 5 gradeOutcome6.total ∧
    (submitAnswer (submitAnswer ⟨[assessmentA1], (List.range 5).map mkSeedEvent, [sessionS1], 5⟩
          "a1" "q_dup" "first" none noBank (Except.ok gradeOutcome6) 100).1
        "a1" "q_dup" "second" none noBank (Except.ok gradeOutcome6) 200).2
      = SubmitResponse.err 409 "DuplicateSubmission" ∧
    ((submitAnswer (submitAnswer ⟨[assessmentA1], (List.range 5).map mkSeedEvent, [sessionS1], 5⟩
          "a1" "q_dup" "first" none noBank (Except.ok gradeOutcome6) 100).1
        "a1" "q_dup" "second" none noBank (Except.ok gradeOutcome6) 200).1.itemEvents.filter
        (fun e => decide (e.assessmentId = "a1") && decide (e.itemId = "q_dup"))).length
      = 1 :=
  submit_concurrent_duplicate_amended assessmentA1 ((List.range 5).map mkSeedEvent)
    [sessionS1] 5 "a1" "q_dup" "first" "second" none none noBank gradeOutcome6
    (Except.ok gradeOutcome6) 100 200 rfl rfl (by decide) (by decide)

/-- C10 amended: if the grading step fails after the insert transaction
has committed, the inserted row is not rolled back — it persists with no
score and no end time — and, provided the item count is still below the
maximum, a retry of the same `(assessmentId, itemId)` fails
`409 DuplicateSubmission` rather than being re-accepted, leaving exactly
one row for the pair.  (At the max-items boundary the retry instead fails
the max-items rule — see the counterexample — and is still not
re-accepted.) -/
theorem submit_grading_failure_amended
    (A : AssessmentRow) (events : List ItemEventRow) (sess : List SessionRow)
    (nid : ℕ) (aid itemId ans1 ans2 : String) (q1 q2 : Option String)
    (bank : String → String → Option String)
    (g2 : Except Unit GradeOutcome) (now1 now2 : ℤ)
    (hid : A.id = aid) (hfin : A.finishedAt = none)
    (hcount : (events.filter (fun e => decide (e.assessmentId = aid))).length ≤ 16)
    (hnodup : ∀ e ∈ events, ¬(e.assessmentId = aid ∧ e.itemId = itemId)) :
    (submitAnswer ⟨[A], events, sess, nid⟩ aid itemId ans1 q1 bank
        (Except.error ()) now1).2 = SubmitResponse.serverError ∧
    (submitAnswer ⟨[A], events, sess, nid⟩ aid itemId ans1 q1 bank
        (Except.error ()) now1).1.itemEvents.filter
        (fun e => decide (e.assessmentId = aid) && decide (e.itemId = itemId))
      = [newRow nid aid itemId ans1
          (q1.getD ((bank A.jobId itemId).getD ("Item " ++ itemId))) now1] ∧
    (newRow nid aid itemId ans1
        (q1.getD ((bank A.jobId itemId).getD ("Item " ++ itemId))) now1).score = none ∧
    (newRow nid aid itemId ans1
        (q1.getD ((bank A.jobId itemId).getD ("Item " ++ itemId))) now1).tEnd = none ∧
    (submitAnswer (submitAnswer ⟨[A], events, sess, nid⟩ aid itemId ans1 q1 bank
          (Except.error ()) now1).1 aid itemId ans2 q2 bank g2 now2).2
      = SubmitResponse.err 409 "DuplicateSubmission" ∧
    ((submitAnswer (submitAnswer ⟨[A], events, sess, nid⟩ aid itemId ans1 q1 bank
          (Except.error ()) now1).1 aid itemId ans2 q2 bank g2 now2).1.itemEvents.filter
        (fun e => decide (e.assessmentId = aid) && decide (e.itemId = itemId))).length
      = 1 := by
  have h18 : (events.filter (fun e => decide (e.assessmentId = aid))).length
      < MAX_ASSESSMENT_ITEMS := by
    unfold MAX_ASSESSMENT_ITEMS
    omega
  have h1 := submitAnswer_gradeFail_run A events sess nid aid itemId ans1 q1 bank now1
    hid hfin h18 hnodup
  rw [h1]
  have hrow1A : (newRow nid aid itemId ans1
      (q1.getD ((bank A.jobId itemId).getD ("Item " ++ itemId))) now1).assessmentId = aid := rfl
  have hrow1I : (newRow nid aid itemId ans1
      (q1.getD ((bank A.jobId itemId).getD ("Item " ++ itemId))) now1).itemId = itemId := rfl
  have hpairnil : events.filter
      (fun e => decide (e.assessmentId = aid) && decide (e.itemId = itemId)) = [] := by
    rw [List.filter_eq_nil_iff]
    intro e he
    simp only [Bool.and_eq_true, decide_eq_true_eq, not_and]
    exact fun hc hi => hnodup e he ⟨hc, hi⟩
  have hcount2 : ((events ++ [newRow nid aid itemId ans1
        (q1.getD ((bank A.jobId itemId).getD ("Item " ++ itemId))) now1]).filter
        (fun e => decide (e.assessmentId = aid))).length < MAX_ASSESSMENT_ITEMS := by
    rw [List.filter_append, List.length_append]
    have hone := List.length_filter_le (fun e => decide (e.assessmentId = aid))
      [newRow nid aid itemId ans1
        (q1.getD ((bank A.jobId itemId).getD ("Item " ++ itemId))) now1]
    simp only [List.length_cons, List.length_nil] at hone
    unfold MAX_ASSESSMENT_ITEMS
    omega
  have hdup2 : ∃ e ∈ events ++ [newRow nid aid itemId ans1
        (q1.getD ((bank A.jobId itemId).getD ("Item " ++ itemId))) now1],
      e.assessmentId = aid ∧ e.itemId = itemId :=
    ⟨newRow nid aid itemId ans1
        (q1.getD ((bank A.jobId itemId).getD ("Item " ++ itemId))) now1,
     List.mem_append_right _ (List.mem_singleton_self _), hrow1A, hrow1I⟩
  have h2 := submitAnswer_dup_run (startedUpd aid now1 A)
    (events ++ [newRow nid aid itemId ans1
        (q1.getD ((bank A.jobId itemId).getD ("Item " ++ itemId))) now1])
    sess (nid + 1) aid itemId ans2 q2 bank g2 now2
    (by rw [startedUpd_id]; exact hid) (by rw [startedUpd_finishedAt]; exact hfin)
    hcount2 hdup2
  rw [h2]
  refine ⟨rfl, ?_, rfl, rfl, rfl, ?_⟩
  · rw [List.filter_append, hpairnil]
    simp [newRow]
  · rw [List.filter_append, hpairnil]
    simp [newRow]

/-- Witness for C10 amended at a concrete state: active assessment, five
existing items, grading fails on the first submission of `q_dup2`. -/
theorem submit_grading_failure_amended_witness :
    (submitAnswer ⟨[assessmentA1], (List.range 5).map mkSeedEvent, [sessionS1], 5⟩
        "a1" "q_dup2" "first" none noBank (Except.error ()) 100).2
      = SubmitResponse.serverError ∧
    (submitAnswer ⟨[assessmentA1], (List.range 5).map mkSeedEvent, [sessionS1], 5⟩
        "a1" "q_dup2" "first" none noBank (Except.error ()) 100).1.itemEvents.filter
        (fun e => decide (e.assessmentId = "a1") && decide (e.itemId = "q_dup2"))
      = [newRow 5 "a1" "q_dup2" "first"
          ((none : Option String).getD ((noBank assessmentA1.jobId "q_dup2").getD
            ("Item " ++ "q_dup2"))) 100] ∧
    (newRow 5 "a1" "q_dup2" "first"
        ((none : Option String).getD ((noBank assessmentA1.jobId "q_dup2").getD
          ("Item " ++ "q_dup2"))) 100).score = none ∧
    (newRow 5 "a1" "q_dup2" "first"
        ((none : Option String).getD ((noBank assessmentA1.jobId "q_dup2").getD
          ("Item " ++ "q_dup2"))) 100).tEnd = none ∧
    (submitAnswer (submitAnswer ⟨[assessmentA1], (List.range 5).map mkSeedEvent, [sessionS1], 5⟩
          "a1" "q_dup2" "first" none noBank (Except.error ()) 100).1
        "a1" "q_dup2" "retry" none noBank (Except.ok gradeOutcome6) 200).2
      = SubmitResponse.err 409 "DuplicateSubmission" ∧
    ((submitAnswer (submitAnswer ⟨[assessmentA1], (List.range 5).map mkSeedEvent, [sessionS1], 5⟩
          "a1" "q_dup2" "first" none noBank (Except.error ()) 100).1
        "a1" "q_dup2" "retry" none noBank (Except.ok gradeOutcome6) 200).1.itemEvents.filter
        (fun e => decide (e.assessmentId = "a1") && decide (e.itemId = "q_dup2"))).length
      = 1 :=
  submit_grading_failure_amended assessmentA1 ((List.range 5).map mkSeedEvent)
    [sessionS1] 5 "a1" "q_dup2" "first" "retry" none none noBank
    (Except.ok gradeOutcome6) 100 200 rfl rfl (by decide) (by decide)

/-- Projection: the risk field of `computeIntegrityRisk`. -/
theorem computeIntegrityRisk_risk_def (events : List IntegrityEvent) :
    (computeIntegrityRisk events).risk
      = min 1 ((collectKeys events).map (fun k => entryRisk (bucketOf events k))).sum := rfl

/-- Projection: the band field of `computeIntegrityRisk` is computed from
its risk field by the `< 0.3` / `< 0.7` chain. -/
theorem computeIntegrityRisk_band_def (events : List IntegrityEvent) :
    (computeIntegrityRisk events).band
      = (if (computeIntegrityRisk events).risk < 3/10 then Band.Low
         else if (computeIntegrityRisk events).risk < 7/10 then Band.Med
         else Band.High) := rfl

/-- Projection: the reasons field of `computeIntegrityRisk`. -/
theorem computeIntegrityRisk_reasons_def (events : List IntegrityEvent) :
    (computeIntegrityRisk events).reasons
      = ((collectKeys events).flatMap (fun k => entryReasons k (bucketOf events k))).take 5 := rfl

/-- Every per-entry contribution is nonnegative. -/
theorem entryRisk_nonneg (evts : List IntegrityEvent) : 0 ≤ entryRisk evts := by
  simp only [entryRisk]
  refine add_nonneg (add_nonneg ?_ ?_) ?_
  · split_ifs <;> norm_num
  · split_ifs <;> positivity
  · positivity

/-- Count of events of a type in a bucket equals the combined filter. -/
theorem bucket_count (events : List IntegrityEvent) (k : String) (ty : EventType) :
    ((bucketOf events k).filter (fun e => decide (e.type1 = ty))).length
      = countTyped events k ty := by
  unfold bucketOf countTyped
  rw [List.filter_filter]
  congr 1
  exact List.filter_congr (fun a _ => Bool.and_comm _ _)

/-- The source's visibility term equals the spec-side saturating step. -/
theorem vis_term_eq (v : ℕ) :
    (if v > 0 then (if v = 1 then (1 : ℚ)/20 else 3/20) else 0)
      = specVisContribution v := by
  unfold specVisContribution
  rcases v with _ | _ | v
  · norm_num
  · norm_num
  · have h0 : v + 2 > 0 := by omega
    have h1 : v + 2 ≠ 1 := by omega
    have h2 : 2 ≤ v + 2 := by omega
    simp [h0, h1, h2]

/-- The source's paste term equals the spec-side first-plus-linear rule. -/
theorem paste_term_eq (p : ℕ) :
    (if p > 0 then (1 : ℚ)/20 + ((p - 1 : ℕ) : ℚ) * (1/10) else 0)
      = specPasteContribution p := by
  unfold specPasteContribution
  rcases p with _ | p
  · norm_num
  · simp

/-- The contribution of a bucket equals the spec-side formula over the
counts of its visibility, paste and latency events. -/
theorem entryRisk_eq_spec (events : List IntegrityEvent) (k : String) :
    entryRisk (bucketOf events k) = specItemContribution events k := by
  simp only [entryRisk, specItemContribution]
  rw [bucket_count, bucket_count, bucket_count, vis_term_eq, paste_term_eq]
  unfold specLatencyContribution
  ring

/-- A bucket of focus/blur events contributes nothing. -/
theorem entryRisk_zero_of_unscored (evts : List IntegrityEvent)
    (h : ∀ e ∈ evts, e.type1 = EventType.focus ∨ e.type1 = EventType.blur) :
    entryRisk evts = 0 := by
  have hv : evts.filter (fun e => decide (e.type1 = EventType.visibilitychange)) = [] :=
    List.filter_eq_nil_iff.mpr (by intro a ha; rcases h a ha with h1 | h1 <;> simp [h1])
  have hp : evts.filter (fun e => decide (e.type1 = EventType.paste)) = [] :=
    List.filter_eq_nil_iff.mpr (by intro a ha; rcases h a ha with h1 | h1 <;> simp [h1])
  have hl : evts.filter (fun e => decide (e.type1 = EventType.latencyOutlier)) = [] :=
    List.filter_eq_nil_iff.mpr (by intro a ha; rcases h a ha with h1 | h1 <;> simp [h1])
  simp [entryRisk, hv, hp, hl]

/-- A bucket of focus/blur events pushes no reasons. -/
theorem entryReasons_nil_of_unscored (k : String) (evts : List IntegrityEvent)
    (h : ∀ e ∈ evts, e.type1 = EventType.focus ∨ e.type1 = EventType.blur) :
    entryReasons k evts = [] := by
  have hv : evts.filter (fun e => decide (e.type1 = EventType.visibilitychange)) = [] :=
    List.filter_eq_nil_iff.mpr (by intro a ha; rcases h a ha with h1 | h1 <;> simp [h1])
  have hp : evts.filter (fun e => decide (e.type1 = EventType.paste)) = [] :=
    List.filter_eq_nil_iff.mpr (by intro a ha; rcases h a ha with h1 | h1 <;> simp [h1])
  have hl : evts.filter (fun e => decide (e.type1 = EventType.latencyOutlier)) = [] :=
    List.filter_eq_nil_iff.mpr (by intro a ha; rcases h a ha with h1 | h1 <;> simp [h1])
  simp [entryReasons, hv, hp, hl]

/-- Normalizing missing item ids to `"unknown"` leaves the key list
unchanged. -/
theorem collectKeys_normalized (events : List IntegrityEvent) :
    collectKeys (events.map withNormalizedItemId) = collectKeys events := by
  unfold collectKeys
  rw [List.foldl_map]
  rfl

/-- Normalizing missing item ids commutes with bucketing. -/
theorem bucketOf_normalized (events : List IntegrityEvent) (k : String) :
    bucketOf (events.map withNormalizedItemId) k
      = (bucketOf events k).map withNormalizedItemId := by
  unfold bucketOf
  rw [List.filter_map]
  rfl

/-- Normalizing missing item ids leaves per-entry risks unchanged. -/
theorem entryRisk_map_normalized (l : List IntegrityEvent) :
    entryRisk (l.map withNormalizedItemId) = entryRisk l := by
  simp only [entryRisk, List.filter_map, List.length_map]
  rfl

/-- Normalizing missing item ids leaves per-entry reasons unchanged. -/
theorem entryReasons_map_normalized (k : String) (l : List IntegrityEvent) :
    entryReasons k (l.map withNormalizedItemId) = entryReasons k l := by
  simp only [entryReasons, List.filter_map, List.length_map]
  rfl

/-- Normalizing missing item ids to `"unknown"` leaves the whole result
unchanged: events without an `itemId` are scored exactly as members of
the single `"unknown"` bucket. -/
theorem computeIntegrityRisk_normalized (events : List IntegrityEvent) :
    computeIntegrityRisk (events.map withNormalizedItemId)
      = computeIntegrityRisk events := by
  have h1 : ∀ k, entryRisk (bucketOf (events.map withNormalizedItemId) k)
      = entryRisk (bucketOf events k) := fun k => by
    rw [bucketOf_normalized, entryRisk_map_normalized]
  have h2 : ∀ k, entryReasons k (bucketOf (events.map withNormalizedItemId) k)
      = entryReasons k (bucketOf events k) := fun k => by
    rw [bucketOf_normalized, entryReasons_map_normalized]
  unfold computeIntegrityRisk
  rw [collectKeys_normalized]
  simp only [h1, h2]

/-- C5: the risk of `computeIntegrityRisk` is the capped sum, over the
grouping keys, of the spec's per-item contributions — +0.05 for exactly
one visibilitychange and a flat +0.15 for two or more; +0.05 for the
first paste plus +0.10 per additional paste; +0.10 per latencyOutlier,
uncapped per item; focus and blur events contribute nothing (a list of
only focus/blur events scores 0 with no reasons); and events without an
`itemId` are scored exactly as if tagged with the single key
`"unknown"`. -/
theorem computeIntegrityRisk_contributions (events : List IntegrityEvent) :
    (computeIntegrityRisk events).risk
      = min 1 ((collectKeys events).map (specItemContribution events)).sum ∧
    ((∀ e ∈ events, e.type1 = EventType.focus ∨ e.type1 = EventType.blur) →
      (computeIntegrityRisk events).risk = 0 ∧
      (computeIntegrityRisk events).reasons = []) ∧
    computeIntegrityRisk (events.map withNormalizedItemId)
      = computeIntegrityRisk events := by
  refine ⟨?_, ?_, computeIntegrityRisk_normalized events⟩
  · rw [computeIntegrityRisk_risk_def]
    congr 1
    exact congrArg List.sum (List.map_congr_left (fun k _ => entryRisk_eq_spec events k))
  · intro h
    have hbucket : ∀ k, ∀ e ∈ bucketOf events k,
        e.type1 = EventType.focus ∨ e.type1 = EventType.blur := by
      intro k e he
      exact h e (List.mem_filter.mp he).1
    constructor
    · rw [computeIntegrityRisk_risk_def]
      have hz : ((collectKeys events).map (fun k => entryRisk (bucketOf events k))).sum = 0 := by
        apply List.sum_eq_zero
        intro x hx
        obtain ⟨k, hk, rfl⟩ := List.mem_map.mp hx
        exact entryRisk_zero_of_unscored _ (hbucket k)
      rw [hz]
      norm_num
    · rw [computeIntegrityRisk_reasons_def]
      have hz : (collectKeys events).flatMap (fun k => entryReasons k (bucketOf events k)) = [] :=
        List.flatMap_eq_nil_iff.mpr
          (fun k _ => entryReasons_nil_of_unscored k _ (hbucket k))
      rw [hz]
      rfl

/-- Witness for C5 at a concrete event list (one paste without an itemId,
one focus event): the capped spec-side sum is reached, a pure focus/blur
list scores zero, and normalization is invariant. -/
theorem computeIntegrityRisk_contributions_witness :
    ((computeIntegrityRisk
        [{ type1 := EventType.paste, tAt := "t0", itemId := none }]).risk
      = min 1 ((collectKeys
          [{ type1 := EventType.paste, tAt := "t0", itemId := none }]).map
          (specItemContribution
            [{ type1 := EventType.paste, tAt := "t0", itemId := none }])).sum) ∧
    ((computeIntegrityRisk
        [{ type1 := EventType.focus, tAt := "t1", itemId := some "q1" }]).risk = 0 ∧
      (computeIntegrityRisk
        [{ type1 := EventType.focus, tAt := "t1", itemId := some "q1" }]).reasons = []) :=
  ⟨(computeIntegrityRisk_contributions
      [{ type1 := EventType.paste, tAt := "t0", itemId := none }]).1,
   (computeIntegrityRisk_contributions
      [{ type1 := EventType.focus, tAt := "t1", itemId := some "q1" }]).2.1
     (by intro e he; simp only [List.mem_singleton] at he; subst he; left; rfl)⟩

/-- C6: the risk is always in [0, 1]; the band is `Low` exactly when
risk < 0.3, `Med` exactly when 0.3 ≤ risk < 0.7, `High` exactly when
risk ≥ 0.7; and the empty event list yields risk 0, band `Low`, and no
reasons. -/
theorem computeIntegrityRisk_bounds (events : List IntegrityEvent) :
    0 ≤ (computeIntegrityRisk events).risk ∧
    (computeIntegrityRisk events).risk ≤ 1 ∧
    ((computeIntegrityRisk events).band = Band.Low ↔
      (computeIntegrityRisk events).risk < 3/10) ∧
    ((computeIntegrityRisk events).band = Band.Med ↔
      (3/10 ≤ (computeIntegrityRisk events).risk ∧
       (computeIntegrityRisk events).risk < 7/10)) ∧
    ((computeIntegrityRisk events).band = Band.High ↔
      7/10 ≤ (computeIntegrityRisk events).risk) ∧
    computeIntegrityRisk [] = { risk := 0, band := Band.Low, reasons := [] } := by
  have hnn : 0 ≤ ((collectKeys events).map (fun k => entryRisk (bucketOf events k))).sum := by
    apply List.sum_nonneg
    intro x hx
    obtain ⟨k, hk, rfl⟩ := List.mem_map.mp hx
    exact entryRisk_nonneg _
  have hb := computeIntegrityRisk_band_def events
  refine ⟨?_, ?_, ?_, ?_, ?_, ?_⟩
  · rw [computeIntegrityRisk_risk_def]
    exact le_min (by norm_num) hnn
  · rw [computeIntegrityRisk_risk_def]
    exact min_le_left _ _
  · rcases lt_or_le (computeIntegrityRisk events).risk (3/10) with h1 | h1
    · rw [hb, if_pos h1]
      exact iff_of_true rfl h1
    · rw [hb, if_neg (not_lt.mpr h1)]
      split
      · exact iff_of_false (by decide) (by intro h2; linarith)
      · exact iff_of_false (by decide) (by intro h2; linarith)
  · rcases lt_or_le (computeIntegrityRisk events).risk (3/10) with h1 | h1
    · rw [hb, if_pos h1]
      exact iff_of_false (by decide) (by rintro ⟨h2, _⟩; linarith)
    · rcases lt_or_le (computeIntegrityRisk events).risk (7/10) with h2 | h2
      · rw [hb, if_neg (not_lt.mpr h1), if_pos h2]
        exact iff_of_true rfl ⟨h1, h2⟩
      · rw [hb, if_neg (not_lt.mpr h1), if_neg (not_lt.mpr h2)]
        exact iff_of_false (by decide) (by rintro ⟨_, h3⟩; linarith)
  · rcases lt_or_le (computeIntegrityRisk events).risk (3/10) with h1 | h1
    · rw [hb, if_pos h1]
      exact iff_of_false (by decide) (by intro h2; linarith)
    · rcases lt_or_le (computeIntegrityRisk events).risk (7/10) with h2 | h2
      · rw [hb, if_neg (not_lt.mpr h1), if_pos h2]
        exact iff_of_false (by decide) (by intro h3; linarith)
      · rw [hb, if_neg (not_lt.mpr h1), if_neg (not_lt.mpr h2)]
        exact iff_of_true rfl h2
  · have hr0 : (computeIntegrityRisk ([] : List IntegrityEvent)).risk = 0 := by
      rw [computeIntegrityRisk_risk_def]
      norm_num [collectKeys]
    have hband : (computeIntegrityRisk ([] : List IntegrityEvent)).band = Band.Low := by
      rw [computeIntegrityRisk_band_def, hr0]
      norm_num
    have hreasons : (computeIntegrityRisk ([] : List IntegrityEvent)).reasons = [] := by
      rw [computeIntegrityRisk_reasons_def]
      norm_num [collectKeys]
    cases hcr : computeIntegrityRisk ([] : List IntegrityEvent) with
    | mk r b rs =>
      rw [hcr] at hr0 hband hreasons
      simp only at hr0 hband hreasons
      rw [hr0, hband, hreasons]

end AiPrescreen
